import Mathlib

set_option maxRecDepth 100000

/-!
Shallow embedding of the tar-image scanner in `src/base.rs` and the header
codec in `src/tar.rs` of the `rs_tar` repository.

Conventions of the embedding:
* a byte is a `Nat` in `0..255`; the backing file and every buffer is a
  `List Nat`;
* a Rust `String` is represented by its list of Unicode code points
  (`List Nat`), matching `str` operations such as `trim_end_matches('\0')`
  and `trim`, which work at char granularity;
* `io::Result` is `Except IoError`, with `IoError` carrying the
  `io::ErrorKind` and the message string built exactly as the source builds
  it;
* machine integers: `u64` values stay `Nat` (the octal parser can never
  produce `2^64` or more from a parsable field, and the explicit overflow
  check of `from_str_radix` is embedded); `i32` checksum sums stay in `Int`
  (they cannot overflow 32 bits: sums of at most 512 byte values); the one
  place where `i8` arithmetic can wrap, `(' ' as i8 - b as i8)` in
  `signed_crc_calc`, is embedded with explicit two's-complement wrapping
  (`i8wrap`), the release-build semantics of Rust;
* the scanner operates single-threaded, so `Mutex::try_lock` always
  succeeds and is not represented.
-/

namespace RsTar

/-- The `io::ErrorKind` values the sources construct. -/
inductive ErrKind where
  | unexpectedEof
  | invalidData
deriving DecidableEq

/-- An `io::Error`: kind plus the message string the source formats. -/
structure IoError where
  kind : ErrKind
  msg : String
deriving DecidableEq

instance {ε α : Type} [DecidableEq ε] [DecidableEq α] : DecidableEq (Except ε α) :=
  fun x y =>
    match x, y with
    | .ok a, .ok b =>
      if h : a = b then isTrue (by rw [h])
      else isFalse (by intro hh; injection hh; contradiction)
    | .error a, .error b =>
      if h : a = b then isTrue (by rw [h])
      else isFalse (by intro hh; injection hh; contradiction)
    | .ok _, .error _ => isFalse (by intro hh; exact Except.noConfusion hh)
    | .error _, .ok _ => isFalse (by intro hh; exact Except.noConfusion hh)

/-- A UTF-8 continuation byte (`0x80..=0xBF`). -/
def isCont (b : Nat) : Bool := 128 ≤ b && b ≤ 191

/-- UTF-8 decoding with full validation, as `std::str::from_utf8`:
overlong encodings, surrogates and out-of-range sequences are rejected.
Returns the code points on success. -/
def utf8Decode : List Nat → Option (List Nat)
  | [] => some []
  | b :: rest =>
    if b ≤ 127 then
      (utf8Decode rest).map (fun cs => b :: cs)
    else if 194 ≤ b && b ≤ 223 then
      match rest with
      | b1 :: rest1 =>
        if isCont b1 then
          (utf8Decode rest1).map (fun cs => ((b - 192) * 64 + (b1 - 128)) :: cs)
        else none
      | [] => none
    else if b = 224 then
      match rest with
      | b1 :: b2 :: rest2 =>
        if (160 ≤ b1 && b1 ≤ 191) && isCont b2 then
          (utf8Decode rest2).map
            (fun cs => ((b - 224) * 4096 + (b1 - 128) * 64 + (b2 - 128)) :: cs)
        else none
      | _ => none
    else if (225 ≤ b && b ≤ 236) || b = 238 || b = 239 then
      match rest with
      | b1 :: b2 :: rest2 =>
        if isCont b1 && isCont b2 then
          (utf8Decode rest2).map
            (fun cs => ((b - 224) * 4096 + (b1 - 128) * 64 + (b2 - 128)) :: cs)
        else none
      | _ => none
    else if b = 237 then
      match rest with
      | b1 :: b2 :: rest2 =>
        if (128 ≤ b1 && b1 ≤ 159) && isCont b2 then
          (utf8Decode rest2).map
            (fun cs => ((b - 224) * 4096 + (b1 - 128) * 64 + (b2 - 128)) :: cs)
        else none
      | _ => none
    else if b = 240 then
      match rest with
      | b1 :: b2 :: b3 :: rest3 =>
        if ((144 ≤ b1 && b1 ≤ 191) && isCont b2) && isCont b3 then
          (utf8Decode rest3).map
            (fun cs =>
              ((b - 240) * 262144 + (b1 - 128) * 4096 + (b2 - 128) * 64 + (b3 - 128)) :: cs)
        else none
      | _ => none
    else if 241 ≤ b && b ≤ 243 then
      match rest with
      | b1 :: b2 :: b3 :: rest3 =>
        if (isCont b1 && isCont b2) && isCont b3 then
          (utf8Decode rest3).map
            (fun cs =>
              ((b - 240) * 262144 + (b1 - 128) * 4096 + (b2 - 128) * 64 + (b3 - 128)) :: cs)
        else none
      | _ => none
    else if b = 244 then
      match rest with
      | b1 :: b2 :: b3 :: rest3 =>
        if ((128 ≤ b1 && b1 ≤ 143) && isCont b2) && isCont b3 then
          (utf8Decode rest3).map
            (fun cs =>
              ((b - 240) * 262144 + (b1 - 128) * 4096 + (b2 - 128) * 64 + (b3 - 128)) :: cs)
        else none
      | _ => none
    else none

/-- `str::trim_end_matches(c)`: remove every trailing occurrence of `c`. -/
def dropTrailingMatching (c : Nat) (s : List Nat) : List Nat :=
  (s.reverse.dropWhile (fun x => x = c)).reverse

/-- `char::is_whitespace`: the Unicode `White_Space` code points. -/
def isWhitespaceChar (c : Nat) : Bool :=
  (9 ≤ c && c ≤ 13) || c = 32 || c = 133 || c = 160 || c = 5760 ||
  (8192 ≤ c && c ≤ 8202) || c = 8232 || c = 8233 || c = 8239 || c = 8287 ||
  c = 12288

/-- `str::trim`: drop Unicode whitespace from both ends. -/
def trimChars (s : List Nat) : List Nat :=
  ((s.dropWhile isWhitespaceChar).reverse.dropWhile isWhitespaceChar).reverse

/-- The value of one octal digit character, if it is one. -/
def octDigitVal (c : Nat) : Option Nat :=
  if 48 ≤ c && c ≤ 55 then some (c - 48) else none

/-- `u64::from_str_radix(s, 8)`: an optional `+` sign followed by at least
one octal digit; any other character is an error.  (The unsigned parser
rejects `-`.)  Overflow past `u64` is an error, checked by the caller. -/
def fromStrRadix8 (s : List Nat) : Option Nat :=
  let s2 := match s with
    | 43 :: rest => rest
    | _ => s
  if s2 = [] then none
  else s2.foldl
    (fun acc c =>
      match acc, octDigitVal c with
      | some a, some d => some (a * 8 + d)
      | _, _ => none)
    (some 0)

/-- `TarHeader::parse_octal`: decode the field as UTF-8 (else 0), strip
trailing NULs, trim whitespace, parse base 8 (unparsable or overflowing
fields give 0). -/
def parse_octal (field : List Nat) : Nat :=
  match utf8Decode field with
  | none => 0
  | some s =>
    match fromStrRadix8 (trimChars (dropTrailingMatching 0 s)) with
    | some v => if v < 2 ^ 64 then v else 0
    | none => 0

/-- `TarHeader` (src/tar.rs).  In the source the struct is produced by
`read_unaligned`: it is a raw reinterpretation of the 512 block bytes, so we
keep the block bytes and read every field as a slice at its fixed offset
(name 0..100, mode 100..108, uid 108..116, gid 116..124, size 124..136,
mtime 136..148, chksum 148..156, typeflag 156, linkname 157..257, magic
257..263, version 263..265, uname 265..297, gname 297..329, devmajor
329..337, devminor 337..345, padding 500..512). -/
structure TarHeader where
  bytes : List Nat
deriving DecidableEq

/-- `read_tar_header`: reinterpret (copy) the first 512 bytes of the buffer
as a `TarHeader`. -/
def read_tar_header (buf : List Nat) : TarHeader := ⟨buf.take 512⟩

/-- The 100-byte `name` field. -/
def TarHeader.nameField (h : TarHeader) : List Nat := h.bytes.take 100

/-- The 12-byte `size` field. -/
def TarHeader.sizeField (h : TarHeader) : List Nat := (h.bytes.drop 124).take 12

/-- The 8-byte `chksum` field. -/
def TarHeader.chksumField (h : TarHeader) : List Nat := (h.bytes.drop 148).take 8

/-- The `typeflag` byte. -/
def TarHeader.typeflag (h : TarHeader) : Nat := h.bytes.getD 156 0

/-- The 100-byte `linkname` field. -/
def TarHeader.linknameField (h : TarHeader) : List Nat := (h.bytes.drop 157).take 100

/-- `TarHeader::get_name`: UTF-8 decode the name field and strip trailing
NULs; invalid UTF-8 decodes to the empty string. -/
def TarHeader.get_name (h : TarHeader) : List Nat :=
  match utf8Decode h.nameField with
  | some s => dropTrailingMatching 0 s
  | none => []

/-- `TarHeader::get_link_name`: UTF-8 decode the linkname field and strip
trailing NULs; invalid UTF-8 decodes to the empty string. -/
def TarHeader.get_link_name (h : TarHeader) : List Nat :=
  match utf8Decode h.linknameField with
  | some s => dropTrailingMatching 0 s
  | none => []

/-- `TarHeader::get_size`. -/
def TarHeader.get_size (h : TarHeader) : Nat := parse_octal h.sizeField

/-- `TarHeader::get_type_flag`: `typeflag as char`, i.e. the byte value as a
code point. -/
def TarHeader.get_type_flag (h : TarHeader) : Nat := h.typeflag

/-- Sum of a byte list read as unsigned values (`b as i32`). -/
def sumU (l : List Nat) : Int := (l.map (fun b => (b : Int))).sum

/-- A byte reinterpreted as `i8` (`b as i8`). -/
def i8val (b : Nat) : Int := if b < 128 then (b : Int) else (b : Int) - 256

/-- Sum of a byte list read as signed values (through `*const i8`). -/
def sumS (l : List Nat) : Int := (l.map i8val).sum

/-- Two's-complement wrapping of an `Int` into `i8` range, the release-build
semantics of an overflowing `i8` operation. -/
def i8wrap (x : Int) : Int := (x + 128) % 256 - 128

/-- `TarHeader::get_crc`: `parse_octal(&self.chksum) as i32` — the low 32
bits of the `u64`, reinterpreted as a signed 32-bit value. -/
def TarHeader.get_crc (h : TarHeader) : Int :=
  let m : Nat := parse_octal h.chksumField % 2 ^ 32
  if m < 2 ^ 31 then (m : Int) else (m : Int) - 2 ^ 32

/-- `TarHeader::crc_calc`: sum of the 512 struct bytes as unsigned values,
minus the checksum-field bytes, plus `' ' * 8`. -/
def TarHeader.crc_calc (h : TarHeader) : Int :=
  sumU h.bytes - sumU h.chksumField + 32 * 8

/-- `TarHeader::signed_crc_calc`: sum of the 512 struct bytes as signed
values, plus `(' ' as i8 - b as i8) as i32` for each checksum-field byte.
The inner subtraction is an `i8` operation and wraps (release semantics). -/
def TarHeader.signed_crc_calc (h : TarHeader) : Int :=
  sumS h.bytes + (h.chksumField.map (fun b => i8wrap (32 - i8val b))).sum

/-- `TarHeader::crc_ok`: the stored checksum matches the unsigned or the
signed recomputation. -/
def TarHeader.crc_ok (h : TarHeader) : Bool :=
  h.get_crc == h.crc_calc || h.get_crc == h.signed_crc_calc

/-- `TarImage` (src/base.rs): backing bytes plus the pending long-link
name.  The cached `size` equals the backing file's length (set at `open`
from `metadata().len()` and immutable), so it is exposed as `get_size`
below rather than duplicated. -/
structure TarImage where
  data : List Nat
  last_link_name : List Nat
deriving DecidableEq

/-- `TarImage::get_size`: the cached total size. -/
def TarImage.get_size (img : TarImage) : Nat := img.data.length

/-- `TarImage::read_img_at`: seek a duplicated handle to `offset`, read
exactly `size` bytes; `UnexpectedEof` if fewer are available. -/
def read_img_at (img : TarImage) (offset size : Nat) :
    Except IoError (List Nat × Nat) :=
  let n := min size (img.data.length - offset)
  if n ≠ size then .error ⟨.unexpectedEof, "not enough data"⟩
  else .ok ((img.data.drop offset).take size, n)

/-- The `map_err` wrapper of `tar_hdr_read_internal`: prefix the failing
offset onto the read error's message. -/
def errMsgAt (offset : Nat) (e : IoError) : IoError :=
  ⟨e.kind, "Error reading image at offset " ++ toString offset ++ ": " ++ e.msg⟩

/-- One iteration of the loop body of `tar_hdr_read_internal`
(src/base.rs 132-163): read one 512-byte block at `offset + headerSize`
(wrapping a read failure with the offset), parse it, and dispatch: an empty
decoded name is a sentinel block handled by `sentinel` (the
`num_zero_blocks` branch of the caller); otherwise a checksum failure is an
`InvalidData` error and a valid header returns `(hdr, headerSize + 512)`. -/
def tarHdrReadOnce (img : TarImage) (offset headerSize : Nat)
    (sentinel : TarHeader → Except IoError (TarHeader × Nat)) :
    Except IoError (TarHeader × Nat) :=
  match read_img_at img (offset + headerSize) 512 with
  | .error e => .error (errMsgAt (offset + headerSize) e)
  | .ok (buf, n) =>
    if n < 512 then .error ⟨.unexpectedEof, "not enough data"⟩
    else
      let hdr := read_tar_header buf
      if hdr.get_name = [] then sentinel hdr
      else if hdr.crc_ok = false then
        .error ⟨.invalidData, "tar header checksum error"⟩
      else .ok (hdr, headerSize + 512)

/-- The loop of `tar_hdr_read_internal` (src/base.rs 127-164).  The source
counts `num_zero_blocks` upward and exits at 2; here `zbRemaining`
(`= 2 - num_zero_blocks`) counts the same state downward so that the
recursion is structural.  On an empty-name block: with at most one sentinel
still allowed (`zbRemaining ≤ 1`, i.e. `num_zero_blocks + 1 ≥ 2`) the scan
ends with `(hdr, 0)`; otherwise the loop continues at the next block with
`header_size` grown by 512. -/
def tarHdrReadAux (img : TarImage) (offset : Nat) :
    Nat → Nat → Except IoError (TarHeader × Nat)
  | headerSize, 0 => tarHdrReadOnce img offset headerSize (fun hdr => .ok (hdr, 0))
  | headerSize, 1 => tarHdrReadOnce img offset headerSize (fun hdr => .ok (hdr, 0))
  | headerSize, zr + 2 =>
    tarHdrReadOnce img offset headerSize
      (fun _ => tarHdrReadAux img offset (headerSize + 512) (zr + 1))

/-- `tar_hdr_read_internal`: start the loop with `header_size = 0` and
`num_zero_blocks = 0` (i.e. two sentinel blocks still to go). -/
def tar_hdr_read_internal (img : TarImage) (offset : Nat) :
    Except IoError (TarHeader × Nat) :=
  tarHdrReadAux img offset 0 2

/-- `TarFile` (src/base.rs).  The `image: Arc<Mutex<TarImage>>` field holds a
clone whose bytes are those of the scanned image; the backing bytes are
passed explicitly to the operations here instead of being stored. -/
structure TarFile where
  header : TarHeader
  base_offset : Nat
  pos : Nat
  file_type : Int
  link : List Nat
  header_size : Nat
deriving DecidableEq

/-- `TarFile::new`. -/
def TarFile.new (hdr : TarHeader) : TarFile :=
  { header := hdr, base_offset := 0, pos := 0, file_type := -1,
    link := [], header_size := 0 }

/-- `read_file_header` (src/base.rs 166-185): read a header, build the
`TarFile` at this offset, classify directories ('5' = 53) and symbolic
links ('1' = 49, picking up a non-empty pending `last_link_name`), record a
long-link marker's ('K' = 75) linkname into the image's pending state, then
reject a zero header size (the two-zero-block EOF) as `InvalidData`.
`TarFileType::Directory as i32 = 2`, `TarFileType::SymbolicLink as i32 = 6`.
Returns the result together with the image (whose `last_link_name` the call
may have updated). -/
def read_file_header (img : TarImage) (offset : Nat) :
    (Except IoError (TarFile × Nat)) × TarImage :=
  match tar_hdr_read_internal img offset with
  | .error e => (.error e, img)
  | .ok (hdr, n) =>
    let tf1 := { TarFile.new hdr with base_offset := offset }
    let tf2 :=
      if hdr.get_type_flag = 53 then { tf1 with file_type := 2 }
      else if hdr.get_type_flag = 49 then
        if img.last_link_name ≠ [] then
          { tf1 with file_type := 6, link := img.last_link_name }
        else { tf1 with file_type := 6 }
      else tf1
    let img2 :=
      if hdr.get_type_flag = 75 then
        { img with last_link_name := hdr.get_link_name }
      else img
    if n = 0 then (.error ⟨.invalidData, "tar header size is zero"⟩, img2)
    else (.ok ({ tf2 with header_size := n }, n), img2)

/-- The body-size rounding of `for_each_entry`: data size rounded up to the
next multiple of 512. -/
def roundup512 (n : Nat) : Nat :=
  if n % 512 = 0 then n else (n / 512 + 1) * 512

/-- The loop of `TarImage::for_each_entry` (src/base.rs 92-123), with the
visitor `cb` and the list of entries the visitor was invoked on as an
additional result.  While `off < size`: read the header at `off` (errors
propagate); advance `off` by `header_size` for a long-link marker
('K' = 75) and by `n + rounded body size` otherwise; invoke the callback on
every non-marker entry, propagating its failure.  `fuel` bounds the
iteration count; every iteration advances `off` by at least 512 (a
successful `read_file_header` returns `n ≥ 512`), so
`size / 512 + 1` iterations, supplied by `for_each_entry` below, can never
be exhausted while `off < size`. -/
def for_each_entry_aux (cb : TarFile → Except IoError Unit) :
    Nat → TarImage → Nat → (Except IoError Unit) × List TarFile
  | 0, _, _ => (.ok (), [])
  | fuel + 1, img, off =>
    if off < img.get_size then
      match read_file_header img off with
      | (.error e, _) => (.error e, [])
      | (.ok (tf, n), img2) =>
        let bodySize := roundup512 tf.header.get_size
        let off2 :=
          if tf.header.get_type_flag = 75 then off + tf.header_size
          else off + n + bodySize
        if tf.header.get_type_flag = 75 then
          for_each_entry_aux cb fuel img2 off2
        else
          match cb tf with
          | .error e => (.error e, [tf])
          | .ok _ =>
            let r := for_each_entry_aux cb fuel img2 off2
            (r.1, tf :: r.2)
    else (.ok (), [])

/-- `TarImage::for_each_entry`: run the scan loop from offset 0. -/
def for_each_entry (img : TarImage) (cb : TarFile → Except IoError Unit) :
    (Except IoError Unit) × List TarFile :=
  for_each_entry_aux cb (img.get_size / 512 + 1) img 0

/-- `impl Read for TarFile` (src/base.rs 214-228): lock the image (always
uncontended here), return `Ok(0)` once the cursor has reached the declared
size, otherwise seek the image to `SeekFrom::Start(self.pos)` and read into
the buffer; the duplicated descriptor shares the file offset, so the read
returns `min(buffer, file_len - pos)` bytes taken from absolute offset
`pos`, and the cursor advances by the bytes actually read. -/
def TarFile.read (f : TarFile) (data : List Nat) (bufLen : Nat) :
    Except IoError (List Nat × TarFile) :=
  if f.header.get_size ≤ f.pos then .ok ([], f)
  else
    let n := min bufLen (data.length - f.pos)
    .ok ((data.drop f.pos).take n, { f with pos := f.pos + n })

/-! Definitions taken from the specification's wording, for comparison with
the code-derived checksum functions. -/

/-- Spec wording: "all 512 bytes with the 8 checksum bytes replaced by ASCII
spaces" — the block with its checksum field (bytes 148..156) overwritten by
`0x20`. -/
def spaceReplaced (l : List Nat) : List Nat :=
  l.take 148 ++ List.replicate 8 32 ++ l.drop 156

/-- Spec wording: the space-replaced sum "under the unsigned-byte
interpretation". -/
def unsignedSpaceSum (h : TarHeader) : Int := sumU (spaceReplaced h.bytes)

/-- Spec wording: the space-replaced sum "under the signed-byte
interpretation" (no wrapping anywhere). -/
def signedSpaceSum (h : TarHeader) : Int := sumS (spaceReplaced h.bytes)

/-- The number of checksum-field bytes whose `i8` space-replacement delta
`32 - (b as i8)` overflows `i8` (exactly the bytes `0x80..=0xA0`). -/
def wrapCount (h : TarHeader) : Nat :=
  h.chksumField.countP (fun b => 128 ≤ b && b ≤ 160)

/-- The backing bytes with the 512-byte block at `off` replaced by an
all-zero block. -/
def zeroBlockAt (data : List Nat) (off : Nat) : List Nat :=
  data.take off ++ List.replicate 512 0 ++ data.drop (off + 512)

/-! Concrete archive material used by the witnesses and counterexamples. -/

/-- A valid GNU long-link marker block: name "x", typeflag 'K' (75),
linkname "abc", stored checksum `0o1351 = 745` matching the recomputation. -/
def kblock : List Nat :=
  (120 :: List.replicate 99 0) ++ List.replicate 48 0 ++
  [49, 51, 53, 49, 0, 0, 0, 0] ++ [75] ++
  ([97, 98, 99] ++ List.replicate 97 0) ++ List.replicate 255 0

/-- A valid symbolic-link block: name "s", typeflag '1' (49), its own
linkname field "zzz", stored checksum `0o1422 = 786`. -/
def symblock : List Nat :=
  (115 :: List.replicate 99 0) ++ List.replicate 48 0 ++
  [49, 52, 50, 50, 0, 0, 0, 0] ++ [49] ++
  ([122, 122, 122] ++ List.replicate 97 0) ++ List.replicate 255 0

/-- A valid regular-file block: name "y", typeflag '0' (48), size 0, stored
checksum `0o651 = 425`. -/
def regblock : List Nat :=
  (121 :: List.replicate 99 0) ++ List.replicate 48 0 ++
  [54, 53, 49, 0, 0, 0, 0, 0] ++ [48] ++ List.replicate 100 0 ++
  List.replicate 255 0

/-- A block with name "x" whose stored checksum (7) matches neither
recomputation (both are 376). -/
def badblock : List Nat :=
  (120 :: List.replicate 147 0) ++ [55, 0, 0, 0, 0, 0, 0, 0] ++
  List.replicate 356 0

/-- A block made of non-zero bytes whose name field starts with `0xFF` and
is therefore invalid UTF-8. -/
def weirdblock : List Nat := (255 :: List.replicate 99 3) ++ List.replicate 412 3

/-- An all-zero block except for a single `0x80` byte at the start of the
checksum field. -/
def c5block : List Nat :=
  List.replicate 148 0 ++ (128 :: List.replicate 7 0) ++ List.replicate 356 0

/-- A block whose only non-zero byte is an ASCII '5' in the size field, so
the decoded entry size is 5. -/
def sizedHeaderBlock : List Nat :=
  List.replicate 124 0 ++ [53] ++ List.replicate 387 0

/-- An entry handle at base offset 0 with a one-block header and declared
size 5, cursor at 0. -/
def sizedFile : TarFile :=
  { header := ⟨sizedHeaderBlock⟩, base_offset := 0, pos := 0, file_type := -1,
    link := [], header_size := 512 }

/-- Two all-zero terminator blocks followed by 512 bytes of junk. -/
def c1data : List Nat := List.replicate 1024 0 ++ List.replicate 512 65

/-- A source whose first 512 bytes are all 1 and next 512 bytes all 2. -/
def c2data : List Nat := List.replicate 512 1 ++ List.replicate 512 2

/-- A long-link marker block followed by a symbolic-link block. -/
def c4data : List Nat := kblock ++ symblock

/-- 1024 bytes of the value 7. -/
def c6data : List Nat := List.replicate 1024 7

/-- One all-zero padding block followed by a valid regular-file block. -/
def c8data : List Nat := List.replicate 512 0 ++ regblock

/-- An invalid-UTF-8-name block followed by a valid long-link block. -/
def c10data : List Nat := weirdblock ++ kblock

/-- A visitor that accepts every entry. -/
def okcb : TarFile → Except IoError Unit := fun _ => Except.ok ()

/-- C1: the claim states that at two consecutive all-zero 512-byte blocks
`for_each_entry` terminates successfully with no error and no further
visits.  The code instead turns the terminator into a failure: on the
archive consisting of two all-zero blocks (plus trailing junk, which is
indeed ignored and the visitor indeed never invoked), `read_file_header`
rejects the zero header size that `tar_hdr_read_internal` returns for the
terminator, and the scan surfaces `InvalidData` "tar header size is zero"
instead of success. -/
theorem c1_terminator_scan_errors :
    for_each_entry ⟨c1data, []⟩ (fun _ => Except.ok ()) =
      (.error ⟨.invalidData, "tar header size is zero"⟩, []) := by decide

/-- C2: the claim states that while the cursor is below the entry size, the
bytes returned by `read` come from absolute source offset
`base_offset + header_footprint + entry_cursor`.  The code instead seeks
the image to `SeekFrom::Start(self.pos)`, the bare cursor: for an entry at
base offset 0 with a 512-byte header over a source whose header region is
all 1s and whose data region is all 2s, a 1-byte read returns the header
byte `1` from absolute offset 0, while the byte at
`base_offset + header_footprint + cursor = 512` is `2`. -/
theorem c2_read_ignores_base_offset :
    TarFile.read sizedFile c2data 1 = .ok ([1], { sizedFile with pos := 1 }) ∧
    (c2data.drop (sizedFile.base_offset + sizedFile.header_size + sizedFile.pos)).take 1
      = [2] := by decide

/-- C6: the claim states the read cursor never advances past the entry's
declared size.  The code does not clamp the read length to the entry
boundary: on an entry of declared size 5, a single 100-byte read over a
1024-byte source advances the cursor to 100 > 5. -/
theorem c6_cursor_exceeds_size :
    TarFile.read sizedFile c6data 100 =
      .ok (List.replicate 100 7, { sizedFile with pos := 100 }) ∧
    sizedFile.header.get_size = 5 ∧ ¬(100 ≤ sizedFile.header.get_size) := by decide

/-- C7: whenever the entry cursor is at or past the declared size, `read`
returns zero bytes with no error and leaves the handle unchanged, so
repeated reads in that state keep returning zero bytes. -/
theorem c7_read_at_eof (f : TarFile) (data : List Nat) (bufLen : Nat)
    (h : f.header.get_size ≤ f.pos) :
    TarFile.read f data bufLen = .ok ([], f) := by
  unfold TarFile.read
  simp [h]

/-- C7 witness: a concrete entry of size 5 with its cursor at 5 reads zero
bytes and is unchanged. -/
theorem c7_read_at_eof_witness :
    TarFile.read { sizedFile with pos := 5 } [] 9 =
      .ok ([], { sizedFile with pos := 5 }) :=
  c7_read_at_eof _ _ _ (by decide)

/-- C3: one scan step at a long-link marker entry ('K' = 75): the visitor
is not invoked on the entry (the continuation does not apply `cb` to it),
the marker's linkname is stored into the image's pending `last_link_name`,
and the scan offset advances by the header size `n` alone — not by the
header-plus-padded-data footprint. -/
theorem c3_longlink_step (cb : TarFile → Except IoError Unit) (fuel : Nat)
    (img : TarImage) (off n : Nat) (hdr : TarHeader)
    (hoff : off < img.get_size)
    (hhdr : tar_hdr_read_internal img off = .ok (hdr, n))
    (hflag : hdr.get_type_flag = 75)
    (hn : n ≠ 0) :
    for_each_entry_aux cb (fuel + 1) img off =
      for_each_entry_aux cb fuel
        { img with last_link_name := hdr.get_link_name } (off + n) := by
  have hrfh : read_file_header img off =
      (.ok ({ header := hdr, base_offset := off, pos := 0, file_type := -1,
              link := [], header_size := n }, n),
       { img with last_link_name := hdr.get_link_name }) := by
    unfold read_file_header
    rw [hhdr]
    simp [TarFile.new, hflag, hn]
  simp only [for_each_entry_aux]
  rw [if_pos hoff, hrfh]
  simp [hflag]

/-- C3 witness: on the archive consisting of the concrete long-link block,
the first scan step skips the visitor, records the marker's linkname
"abc" as the pending long-link name, and advances by the 512-byte header
alone. -/
theorem c3_longlink_step_witness :
    for_each_entry_aux (fun _ => Except.ok ()) 1 ⟨kblock, []⟩ 0 =
      for_each_entry_aux (fun _ => Except.ok ()) 0
        ⟨kblock, TarHeader.get_link_name ⟨kblock⟩⟩ (0 + 512) :=
  c3_longlink_step (fun _ => Except.ok ()) 0 ⟨kblock, []⟩ 0 512 ⟨kblock⟩
    (by decide) (by decide) (by decide) (by decide)

/-- C4: constructing a symbolic-link entry ('1' = 49): the entry's link
target is set to the image's pending `last_link_name` exactly when that
value is non-empty at construction time, and the pending value is returned
unchanged (it is never cleared by being consumed). -/
theorem c4_symlink_pending_link (img : TarImage) (off n : Nat) (hdr : TarHeader)
    (hhdr : tar_hdr_read_internal img off = .ok (hdr, n))
    (hflag : hdr.get_type_flag = 49)
    (hn : n ≠ 0) :
    read_file_header img off =
      (.ok ({ header := hdr, base_offset := off, pos := 0, file_type := 6,
              link := if img.last_link_name = [] then [] else img.last_link_name,
              header_size := n }, n), img) := by
  unfold read_file_header
  rw [hhdr]
  by_cases hlk : img.last_link_name = [] <;> simp [TarFile.new, hflag, hn, hlk]

/-- C4 witness: on the concrete marker-then-symlink archive, the marker is
consumed first (setting the pending name to "abc"), and the symbolic-link
entry built immediately after it carries link target "abc" — the marker's
stored name — while its own linkname field holds the different string
"zzz"; the pending value survives the construction. -/
theorem c4_symlink_pending_link_witness :
    read_file_header ⟨c4data, []⟩ 0 =
      (.ok ({ header := ⟨kblock⟩, base_offset := 0, pos := 0, file_type := -1,
              link := [], header_size := 512 }, 512), ⟨c4data, [97, 98, 99]⟩) ∧
    read_file_header ⟨c4data, [97, 98, 99]⟩ 512 =
      (.ok ({ header := ⟨symblock⟩, base_offset := 512, pos := 0, file_type := 6,
              link := [97, 98, 99], header_size := 512 }, 512),
       ⟨c4data, [97, 98, 99]⟩) ∧
    TarHeader.get_link_name ⟨symblock⟩ = [122, 122, 122] ∧
    ([97, 98, 99] : List Nat) ≠ [122, 122, 122] := by
  refine ⟨by decide, ?_, by decide, by decide⟩
  have h := c4_symlink_pending_link ⟨c4data, [97, 98, 99]⟩ 512 512 ⟨symblock⟩
    (by decide) (by decide) (by decide)
  simpa using h

lemma sumU_append (a b : List Nat) : sumU (a ++ b) = sumU a + sumU b := by
  simp [sumU]

lemma sumS_append (a b : List Nat) : sumS (a ++ b) = sumS a + sumS b := by
  simp [sumS]

lemma sumU_decomp (l : List Nat) :
    sumU l = sumU (l.take 148) + (sumU ((l.drop 148).take 8) + sumU (l.drop 156)) := by
  conv_lhs => rw [← List.take_append_drop 148 l, sumU_append,
    ← List.take_append_drop 8 (l.drop 148), sumU_append, List.drop_drop]

lemma sumS_decomp (l : List Nat) :
    sumS l = sumS (l.take 148) + (sumS ((l.drop 148).take 8) + sumS (l.drop 156)) := by
  conv_lhs => rw [← List.take_append_drop 148 l, sumS_append,
    ← List.take_append_drop 8 (l.drop 148), sumS_append, List.drop_drop]

/-- The unsigned recomputation of the code equals the spec's space-replaced
unsigned sum. -/
lemma crc_calc_eq_spec (h : TarHeader) : h.crc_calc = unsignedSpaceSum h := by
  unfold TarHeader.crc_calc unsignedSpaceSum spaceReplaced TarHeader.chksumField
  rw [sumU_append, sumU_append, sumU_decomp h.bytes,
    (by decide : sumU (List.replicate 8 32) = 256)]
  omega

/-- The `i8` space-replacement delta of the code wraps by exactly 256 on
the bytes `0x80..=0xA0` and agrees with the plain delta elsewhere. -/
lemma i8wrap_sub (b : Nat) (hb : b ≤ 255) :
    i8wrap (32 - i8val b) =
      32 - i8val b - (if 128 ≤ b ∧ b ≤ 160 then 256 else 0) := by
  unfold i8wrap i8val
  split_ifs <;> omega

lemma wrapDelta_sum (l : List Nat) (hb : ∀ b ∈ l, b ≤ 255) :
    (l.map (fun b => i8wrap (32 - i8val b))).sum =
      32 * l.length - sumS l -
        256 * (l.countP (fun b => 128 ≤ b && b ≤ 160) : Int) := by
  induction l with
  | nil => simp [sumS]
  | cons a t ih =>
    have ha : a ≤ 255 := hb a (List.mem_cons_self a t)
    have ht : ∀ b ∈ t, b ≤ 255 := fun b hbt => hb b (List.mem_cons_of_mem a hbt)
    simp only [List.map_cons, List.sum_cons, List.countP_cons, List.length_cons,
      sumS] at *
    rw [i8wrap_sub a ha, ih ht]
    by_cases hc : 128 ≤ a ∧ a ≤ 160
    · simp [hc]
      ring
    · simp [hc]
      ring

/-- The signed recomputation of the code equals the spec's space-replaced
signed sum minus 256 for every checksum-field byte in `0x80..=0xA0`. -/
lemma signed_crc_calc_eq_spec (h : TarHeader) (hlen : h.bytes.length = 512)
    (hb : ∀ b ∈ h.bytes, b ≤ 255) :
    h.signed_crc_calc = signedSpaceSum h - 256 * (wrapCount h : Int) := by
  have hsub : ∀ b ∈ h.chksumField, b ≤ 255 := fun b hbm =>
    hb b (List.mem_of_mem_drop (List.mem_of_mem_take hbm))
  have hchklen : h.chksumField.length = 8 := by
    simp [TarHeader.chksumField, hlen]
  unfold TarHeader.signed_crc_calc signedSpaceSum spaceReplaced wrapCount
  rw [wrapDelta_sum _ hsub, sumS_append, sumS_append, sumS_decomp h.bytes,
    (by decide : sumS (List.replicate 8 32) = 256)]
  unfold TarHeader.chksumField at *
  rw [hchklen]
  omega

/-- C5 (amended): checksum validation accepts a 512-byte block exactly when
the stored checksum equals the space-replaced sum under the unsigned-byte
interpretation, or equals the space-replaced sum under the signed-byte
interpretation corrected by the `i8` wrap of 256 for every checksum-field
byte in `0x80..=0xA0` (for blocks without such bytes this is the plain
signed interpretation the claim describes). -/
theorem c5_crc_accept_iff (h : TarHeader) (hlen : h.bytes.length = 512)
    (hb : ∀ b ∈ h.bytes, b ≤ 255) :
    h.crc_ok = true ↔
      (h.get_crc = unsignedSpaceSum h ∨
       h.get_crc = signedSpaceSum h - 256 * (wrapCount h : Int)) := by
  unfold TarHeader.crc_ok
  rw [crc_calc_eq_spec, signed_crc_calc_eq_spec h hlen hb]
  simp

/-- C5 counterexample to the claim as stated: a block that is all zero
except for a `0x80` byte at the start of the checksum field is accepted by
`crc_ok` (its stored checksum 0 equals the wrapped signed recomputation),
yet its stored checksum matches neither the unsigned nor the plain signed
space-replaced sum (both are 256). -/
theorem c5_signed_wrap_counterexample :
    TarHeader.crc_ok ⟨c5block⟩ = true ∧
    ¬(TarHeader.get_crc ⟨c5block⟩ = unsignedSpaceSum ⟨c5block⟩ ∨
      TarHeader.get_crc ⟨c5block⟩ = signedSpaceSum ⟨c5block⟩) := by decide

/-- C5 witness: the amended equivalence evaluated on the concrete valid
regular-file block. -/
theorem c5_crc_accept_iff_witness :
    TarHeader.crc_ok ⟨regblock⟩ = true ↔
      (TarHeader.get_crc ⟨regblock⟩ = unsignedSpaceSum ⟨regblock⟩ ∨
       TarHeader.get_crc ⟨regblock⟩ =
         signedSpaceSum ⟨regblock⟩ - 256 * (wrapCount ⟨regblock⟩ : Int)) :=
  c5_crc_accept_iff ⟨regblock⟩ (by decide) (by decide)

/-- Unfolding of the header-reading loop with both sentinel blocks still to
go (`num_zero_blocks = 0`): a sentinel block continues the loop at the next
block. -/
lemma tarHdrReadAux_two (img : TarImage) (offset headerSize : Nat) :
    tarHdrReadAux img offset headerSize 2 =
      tarHdrReadOnce img offset headerSize
        (fun _ => tarHdrReadAux img offset (headerSize + 512) 1) := rfl

/-- Unfolding of the header-reading loop after one sentinel block
(`num_zero_blocks = 1`): a second empty-name block ends the archive with
`(hdr, 0)`. -/
lemma tarHdrReadAux_one (img : TarImage) (offset headerSize : Nat) :
    tarHdrReadAux img offset headerSize 1 =
      tarHdrReadOnce img offset headerSize (fun hdr => .ok (hdr, 0)) := rfl

/-- A successful header read consumes 512 bytes, or 1024 when a single
all-zero padding block preceded the header, or reports 0 at the
two-zero-block terminator. -/
lemma tar_hdr_ok_sizes (img : TarImage) (off : Nat) (hdr : TarHeader) (m : Nat)
    (h : tar_hdr_read_internal img off = .ok (hdr, m)) :
    m = 0 ∨ m = 512 ∨ m = 1024 := by
  unfold tar_hdr_read_internal at h
  rw [tarHdrReadAux_two] at h
  simp only [tarHdrReadOnce] at h
  split at h
  · cases h
  · split at h
    · cases h
    · split at h
      · rw [tarHdrReadAux_one] at h
        simp only [tarHdrReadOnce] at h
        split at h
        · cases h
        · split at h
          · cases h
          · split at h
            · simp_all
            · split at h
              · cases h
              · simp_all
      · split at h
        · cases h
        · simp_all

/-- C8 (amended): one scan step at a non-marker entry: the offset advances
by the entry's on-disk footprint: the header bytes actually consumed `n` —
which is 512, or 1024 when one all-zero padding block preceded the header,
rather than always exactly 512 as the claim states — plus the data size
rounded up to the next multiple of 512; the visitor is invoked on the
entry. -/
theorem c8_nonmarker_step (cb : TarFile → Except IoError Unit) (fuel : Nat)
    (img : TarImage) (off n : Nat) (hdr : TarHeader)
    (hoff : off < img.get_size)
    (hhdr : tar_hdr_read_internal img off = .ok (hdr, n))
    (hflag : hdr.get_type_flag ≠ 75)
    (hn : n ≠ 0) :
    (n = 512 ∨ n = 1024) ∧
    ∃ tf : TarFile, tf.header = hdr ∧
      read_file_header img off = (.ok (tf, n), img) ∧
      (cb tf = .ok () →
        for_each_entry_aux cb (fuel + 1) img off =
          ((for_each_entry_aux cb fuel img (off + n + roundup512 hdr.get_size)).1,
           tf :: (for_each_entry_aux cb fuel img
             (off + n + roundup512 hdr.get_size)).2)) := by
  have hsplit : n = 512 ∨ n = 1024 := by
    rcases tar_hdr_ok_sizes img off hdr n hhdr with h0 | h | h
    · exact absurd h0 hn
    · exact Or.inl h
    · exact Or.inr h
  have hrfh : read_file_header img off =
      (.ok ({ header := hdr, base_offset := off, pos := 0,
              file_type := if hdr.get_type_flag = 53 then 2
                else if hdr.get_type_flag = 49 then 6 else -1,
              link := if hdr.get_type_flag = 49 ∧ img.last_link_name ≠ []
                then img.last_link_name else [],
              header_size := n }, n), img) := by
    unfold read_file_header
    rw [hhdr]
    by_cases h53 : hdr.get_type_flag = 53
    · simp [TarFile.new, h53, hn]
    · by_cases h49 : hdr.get_type_flag = 49
      · by_cases hlk : img.last_link_name = [] <;>
          simp [TarFile.new, h53, h49, hn, hlk]
      · simp [TarFile.new, h53, h49, hn, hflag]
  refine ⟨hsplit, _, rfl, hrfh, ?_⟩
  intro hcb
  simp only [for_each_entry_aux]
  rw [if_pos hoff, hrfh]
  simp [hflag, hcb]

/-- C8 counterexample to the claim as stated: on the archive consisting of
one all-zero padding block followed by a valid size-0 regular-file block,
the visited entry's header footprint is 1024 bytes (two blocks were
consumed to locate the header), so the scan step advances the offset by
1024 ≠ 512 + roundup(0) — the header size is not "always exactly one
512-byte block". -/
theorem c8_padded_header_counterexample :
    tar_hdr_read_internal ⟨c8data, []⟩ 0 = .ok (⟨regblock⟩, 1024) ∧
    for_each_entry_aux (fun _ => Except.ok ()) 1 ⟨c8data, []⟩ 0 =
      (.ok (), [{ header := ⟨regblock⟩, base_offset := 0, pos := 0,
                  file_type := -1, link := [], header_size := 1024 }]) ∧
    (1024 : Nat) ≠ 512 + roundup512 (TarHeader.get_size ⟨regblock⟩) := by decide

/-- C8 witness: the amended step theorem evaluated on the archive
consisting of the single valid regular-file block: the entry is visited and
the offset advances by `512 + roundup(0)`. -/
theorem c8_nonmarker_step_witness :
    ((512 : Nat) = 512 ∨ (512 : Nat) = 1024) ∧
    ∃ tf : TarFile, tf.header = ⟨regblock⟩ ∧
      read_file_header ⟨regblock, []⟩ 0 = (.ok (tf, 512), ⟨regblock, []⟩) ∧
      (okcb tf = .ok () →
        for_each_entry_aux okcb (0 + 1) ⟨regblock, []⟩ 0 =
          ((for_each_entry_aux okcb 0 ⟨regblock, []⟩
              (0 + 512 + roundup512 (TarHeader.get_size ⟨regblock⟩))).1,
           tf :: (for_each_entry_aux okcb 0 ⟨regblock, []⟩
              (0 + 512 + roundup512 (TarHeader.get_size ⟨regblock⟩))).2)) :=
  c8_nonmarker_step okcb 0 ⟨regblock, []⟩ 0 512 ⟨regblock⟩
    (by decide) (by decide) (by decide) (by decide)

/-- A block read that lies inside the backing bytes succeeds and returns
the slice. -/
lemma read_img_at_full (img : TarImage) (offset size : Nat)
    (h : offset + size ≤ img.data.length) :
    read_img_at img offset size = .ok ((img.data.drop offset).take size, size) := by
  simp only [read_img_at]
  rw [(by omega : min size (img.data.length - offset) = size)]
  norm_num

/-- C9 (amended): whenever a header fails checksum validation, the scan
fails with kind `InvalidData` and the fixed message "tar header checksum
error" — the same error term at every offset, carrying no offset
information (only header read failures wrap the offset into their
message). -/
theorem c9_checksum_error_constant (img : TarImage) (off : Nat)
    (hlen : off + 512 ≤ img.get_size)
    (hname : (read_tar_header ((img.data.drop off).take 512)).get_name ≠ [])
    (hcrc : (read_tar_header ((img.data.drop off).take 512)).crc_ok = false) :
    tar_hdr_read_internal img off =
      .error ⟨.invalidData, "tar header checksum error"⟩ := by
  have hlen2 : off + 512 ≤ img.data.length := by
    simpa [TarImage.get_size] using hlen
  unfold tar_hdr_read_internal
  rw [tarHdrReadAux_two]
  unfold tarHdrReadOnce
  simp only [Nat.add_zero]
  rw [read_img_at_full img off 512 (by omega)]
  simp [hname, hcrc]

/-- C9 counterexample to the claim as stated: the same invalid-checksum
block placed at offset 0 of one archive and at offset 512 of another makes
the scan fail with literally identical errors, so the checksum-mismatch
error cannot carry the absolute byte offset the claim promises. -/
theorem c9_offsetless_error_counterexample :
    tar_hdr_read_internal ⟨badblock, []⟩ 0 =
      tar_hdr_read_internal ⟨List.replicate 512 9 ++ badblock, []⟩ 512 ∧
    tar_hdr_read_internal ⟨badblock, []⟩ 0 =
      .error ⟨.invalidData, "tar header checksum error"⟩ := by decide

/-- C9 witness: the amended theorem evaluated on the concrete
invalid-checksum block at offset 0. -/
theorem c9_checksum_error_constant_witness :
    tar_hdr_read_internal ⟨badblock, []⟩ 0 =
      .error ⟨.invalidData, "tar header checksum error"⟩ :=
  c9_checksum_error_constant ⟨badblock, []⟩ 0 (by decide) (by decide) (by decide)

lemma zeroBlockAt_length (data : List Nat) (off : Nat)
    (hoff : off + 512 ≤ data.length) :
    (zeroBlockAt data off).length = data.length := by
  simp [zeroBlockAt]
  omega

lemma zeroBlockAt_firstBlock (data : List Nat) (off : Nat)
    (hoff : off + 512 ≤ data.length) :
    ((zeroBlockAt data off).drop off).take 512 = List.replicate 512 0 := by
  unfold zeroBlockAt
  rw [List.append_assoc,
    List.drop_left' (show (data.take off).length = off by simp; omega),
    List.take_left' (show (List.replicate 512 0).length = 512 by simp)]

lemma zeroBlockAt_drop512 (data : List Nat) (off : Nat)
    (hoff : off + 512 ≤ data.length) :
    (zeroBlockAt data off).drop (off + 512) = data.drop (off + 512) := by
  unfold zeroBlockAt
  rw [List.drop_left'
    (show (data.take off ++ List.replicate 512 0).length = off + 512 by
      simp; omega)]

/-- One loop iteration on a block whose decoded name is empty hands control
to the sentinel continuation: the block's checksum is never validated and
the block is never returned as a header. -/
lemma tarHdrReadOnce_sentinel_step (img : TarImage) (offset headerSize : Nat)
    (sentinel : TarHeader → Except IoError (TarHeader × Nat)) (buf : List Nat)
    (hread : read_img_at img (offset + headerSize) 512 = .ok (buf, 512))
    (hempty : (read_tar_header buf).get_name = []) :
    tarHdrReadOnce img offset headerSize sentinel =
      sentinel (read_tar_header buf) := by
  unfold tarHdrReadOnce
  rw [hread]
  simp [hempty]

/-- C10: the sentinel test of the scanner is emptiness of the decoded name,
so a header block whose 100-byte name field is invalid UTF-8 or trims to
nothing decodes to the empty name and is treated exactly like an all-zero
sentinel block: replacing the block by 512 zero bytes does not change the
result of `tar_hdr_read_internal` at its offset — it is counted toward the
two-block terminator, never checksum-validated and never yielded, even when
it contains non-zero bytes. -/
theorem c10_empty_name_sentinel (img : TarImage) (off : Nat)
    (hlen : off + 512 ≤ img.get_size)
    (hname : ∀ s,
      utf8Decode (read_tar_header ((img.data.drop off).take 512)).nameField = some s →
      dropTrailingMatching 0 s = []) :
    (read_tar_header ((img.data.drop off).take 512)).get_name = [] ∧
    tar_hdr_read_internal img off =
      tar_hdr_read_internal { img with data := zeroBlockAt img.data off } off := by
  have hlen2 : off + 512 ≤ img.data.length := by
    simpa [TarImage.get_size] using hlen
  have hempty : (read_tar_header ((img.data.drop off).take 512)).get_name = [] := by
    unfold TarHeader.get_name
    rcases hu : utf8Decode (read_tar_header ((img.data.drop off).take 512)).nameField
      with _ | s
    · rfl
    · exact hname s hu
  refine ⟨hempty, ?_⟩
  have hlen3 : (zeroBlockAt img.data off).length = img.data.length :=
    zeroBlockAt_length _ _ hlen2
  have hr1 : read_img_at img (off + 0) 512 =
      .ok ((img.data.drop off).take 512, 512) := by
    have h := read_img_at_full img (off + 0) 512 (by omega)
    simpa using h
  have hr1z : read_img_at { img with data := zeroBlockAt img.data off } (off + 0) 512 =
      .ok (List.replicate 512 0, 512) := by
    have h := read_img_at_full { img with data := zeroBlockAt img.data off }
      (off + 0) 512
      (by show off + 0 + 512 ≤ (zeroBlockAt img.data off).length
          rw [hlen3]; omega)
    rw [h]
    have hfb := zeroBlockAt_firstBlock img.data off hlen2
    simpa using hfb
  have hzero : (read_tar_header (List.replicate 512 0)).get_name = [] := by decide
  have hr2 : read_img_at { img with data := zeroBlockAt img.data off }
      (off + (0 + 512)) 512 = read_img_at img (off + (0 + 512)) 512 := by
    have hdrop := zeroBlockAt_drop512 img.data off hlen2
    show read_img_at ⟨zeroBlockAt img.data off, img.last_link_name⟩
      (off + (0 + 512)) 512 = read_img_at img (off + (0 + 512)) 512
    simp only [read_img_at]
    norm_num [hlen3, hdrop]
  have honce : tarHdrReadOnce { img with data := zeroBlockAt img.data off }
      off (0 + 512) (fun hdr => .ok (hdr, 0)) =
      tarHdrReadOnce img off (0 + 512) (fun hdr => .ok (hdr, 0)) := by
    unfold tarHdrReadOnce
    rw [hr2]
  calc tar_hdr_read_internal img off
      = tarHdrReadAux img off 0 2 := rfl
    _ = tarHdrReadAux img off (0 + 512) 1 := by
        rw [tarHdrReadAux_two,
          tarHdrReadOnce_sentinel_step img off 0 _ _ hr1 hempty]
    _ = tarHdrReadOnce img off (0 + 512) (fun hdr => .ok (hdr, 0)) :=
        tarHdrReadAux_one img off (0 + 512)
    _ = tarHdrReadOnce { img with data := zeroBlockAt img.data off }
          off (0 + 512) (fun hdr => .ok (hdr, 0)) := honce.symm
    _ = tarHdrReadAux { img with data := zeroBlockAt img.data off }
          off (0 + 512) 1 :=
        (tarHdrReadAux_one { img with data := zeroBlockAt img.data off }
          off (0 + 512)).symm
    _ = tarHdrReadAux { img with data := zeroBlockAt img.data off } off 0 2 := by
        rw [tarHdrReadAux_two,
          tarHdrReadOnce_sentinel_step
            { img with data := zeroBlockAt img.data off } off 0 _ _ hr1z hzero]
    _ = tar_hdr_read_internal { img with data := zeroBlockAt img.data off } off :=
        rfl

/-- C10 witness: a block of non-zero bytes whose name field starts with
`0xFF` (invalid UTF-8) is treated exactly like an all-zero sentinel: the
scan of the concrete archive equals the scan with the block zeroed out. -/
theorem c10_empty_name_sentinel_witness :
    (read_tar_header ((c10data.drop 0).take 512)).get_name = [] ∧
    tar_hdr_read_internal ⟨c10data, []⟩ 0 =
      tar_hdr_read_internal ⟨zeroBlockAt c10data 0, []⟩ 0 :=
  c10_empty_name_sentinel ⟨c10data, []⟩ 0 (by decide)
    (fun s hs => by
      rw [show utf8Decode
          (read_tar_header ((c10data.drop 0).take 512)).nameField = none
        from by decide] at hs
      exact Option.noConfusion hs)

end RsTar
